import Mathlib

/-!
Shallow embedding of the quota governor in src/copernicus_collector.py
(AgroMonitor Pro, Copernicus data collector).  The persisted file
quota_tracker.json becomes an Option QuotaState, each read of the wall
clock becomes an explicit Clock argument, Python integers are Lean Int,
Python floor division is Int.fdiv, and datetime subtraction follows the
CPython timedelta normalization at microsecond resolution.
-/

namespace Copernicus

/-- Microseconds in one day, the resolution of Python datetime arithmetic. -/
def usPerDay : Int := 86400000000

/-- Point in time as Python datetime.now() provides it: proleptic Gregorian
year, month and day, plus the microsecond offset within the day. -/
structure DateTime where
  year : Nat
  month : Nat
  day : Nat
  usOfDay : Nat
deriving DecidableEq, Repr

/-- Gregorian leap-year rule, as used by CPython datetime. -/
def isLeap (y : Nat) : Bool :=
  y % 4 == 0 && (y % 100 != 0 || y % 400 == 0)

/-- Length of month m (1..12) in a non-leap year (CPython _DAYS_IN_MONTH). -/
def daysInMonthTbl (m : Nat) : Nat :=
  [31, 28, 31, 30, 31, 30, 31, 31, 30, 31, 30, 31].getD (m - 1) 0

/-- Days before January 1 of year y, counted from 0001-01-01 being day 1
(CPython _days_before_year). -/
def daysBeforeYear (y : Nat) : Nat :=
  (y - 1) * 365 + (y - 1) / 4 - (y - 1) / 100 + (y - 1) / 400

/-- Days in year y that precede the first of month m (CPython
_days_before_month). -/
def daysBeforeMonth (y m : Nat) : Nat :=
  (List.range (m - 1)).foldl (fun a i => a + daysInMonthTbl (i + 1)) 0 +
    (if 2 < m && isLeap y then 1 else 0)

/-- Ordinal of a calendar date, with 0001-01-01 as day 1 (CPython _ymd2ord). -/
def ymd2ord (y m d : Nat) : Nat :=
  daysBeforeYear y + daysBeforeMonth y m + d

/-- First day of the month after dt, exactly as computed inside
get_quota_status (copernicus_collector.py lines 149-152): December maps to
January 1 of the next year, every other month to the first of month+1 of
the same year. -/
def nextMonthStart (dt : DateTime) : Nat × Nat :=
  if dt.month == 12 then (dt.year + 1, 1) else (dt.year, dt.month + 1)

/-- Whole days from dt until midnight of the calendar date (y, m, d): the
CPython value of (datetime(y, m, d) - dt).days, where timedelta
normalization floors the microsecond difference at day granularity. -/
def wholeDaysUntil (dt : DateTime) (y m d : Nat) : Int :=
  Int.fdiv
    (((ymd2ord y m d : Int) - (ymd2ord dt.year dt.month dt.day : Int)) * usPerDay
      - (dt.usOfDay : Int)) usPerDay

/-- The value days_remaining = (next_month - today).days computed by
get_quota_status (line 153). -/
def days_remaining (dt : DateTime) : Int :=
  wholeDaysUntil dt (nextMonthStart dt).1 (nextMonthStart dt).2 1

/-- Contents of quota_tracker.json, the fields written by load_quota's
default state (lines 73-84) and mutated by the other operations. -/
structure QuotaState where
  monthly_limit_pu : Int
  monthly_limit_requests : Int
  current_month : String
  processing_units_used : Int
  requests_used : Int
  last_updated : String
  daily_budget_pu : Int
  daily_budget_requests : Int
  collections_today : Int
  last_collection_date : Option String
deriving DecidableEq, Repr

/-- Contents of QUOTA_FILE on disk: none when the file does not exist. -/
abbrev Store := Option QuotaState

/-- One reading of the wall clock, pre-split into the formats the code
derives from datetime.now(): strftime "%Y-%m", strftime "%Y-%m-%d",
isoformat(), and the raw date-time used for day arithmetic. -/
structure Clock where
  monthStr : String
  dateStr : String
  isoStr : String
  dt : DateTime
deriving DecidableEq, Repr

/-- save_quota (lines 88-92): stamps last_updated with the current time and
writes the whole record; the result is the new file content, which is also
what the caller's dict holds afterwards. -/
def save_quota (now : Clock) (q : QuotaState) : QuotaState :=
  { q with last_updated := now.isoStr }

/-- Default state created by load_quota when no file exists (lines 72-84). -/
def defaultQuota (now : Clock) : QuotaState :=
  { monthly_limit_pu := 10000
    monthly_limit_requests := 10000
    current_month := now.monthStr
    processing_units_used := 0
    requests_used := 0
    last_updated := now.isoStr
    daily_budget_pu := 300
    daily_budget_requests := 300
    collections_today := 0
    last_collection_date := none }

/-- load_quota (lines 54-86): returns the state handed to the caller and
the file contents afterwards.  A stored month different from the current
one zeroes the counters, stamps the new month and persists the reset; a
missing file is initialized to the default state and persisted. -/
def load_quota (now : Clock) (st : Store) : QuotaState × Store :=
  match st with
  | some q =>
    if q.current_month ≠ now.monthStr then
      let q2 := save_quota now
        { q with current_month := now.monthStr
                 processing_units_used := 0
                 requests_used := 0
                 collections_today := 0 }
      (q2, some q2)
    else
      (q, some q)
  | none =>
    let q := save_quota now (defaultQuota now)
    (q, some q)

/-- check_quota (lines 94-114).  The operation_type argument is accepted
but never read; the result pairs the admission boolean with the file
contents after the embedded load. -/
def check_quota (now : Clock) (st : Store) (operation_type : String)
    (pu_cost : Int) : Bool × Store :=
  let q := (load_quota now st).1
  let st2 := (load_quota now st).2
  let remaining_pu := q.monthly_limit_pu - q.processing_units_used
  let remaining_req := q.monthly_limit_requests - q.requests_used
  if remaining_pu < pu_cost then (false, st2)
  else if remaining_req < 1 then (false, st2)
  else (true, st2)

/-- PU_COSTS table (lines 45-52), as a lookup returning none for kinds the
dict does not contain. -/
def PU_COSTS (operation_type : String) : Option Int :=
  if operation_type == "map_rgb" then some 50
  else if operation_type == "map_ndvi" then some 50
  else if operation_type == "ndvi" then some 30
  else if operation_type == "ndwi" then some 30
  else if operation_type == "ndsi" then some 30
  else if operation_type == "zonal_stats" then some 40
  else none

/-- Cost resolution at the top of use_quota (lines 120-121): an explicit
cost wins, otherwise PU_COSTS.get(operation_type, 30). -/
def resolveCost (operation_type : String) (pu_cost : Option Int) : Int :=
  match pu_cost with
  | some c => c
  | none => (PU_COSTS operation_type).getD 30

/-- use_quota (lines 116-137): loads (with possible rollover), adds the
resolved cost to processing_units_used, counts one request, resets the
daily counter to 1 when the stored last_collection_date is not today and
increments it otherwise, and saves. -/
def use_quota (now : Clock) (st : Store) (operation_type : String)
    (pu_cost : Option Int) : Store :=
  let q := (load_quota now st).1
  let c := resolveCost operation_type pu_cost
  let q2 := { q with processing_units_used := q.processing_units_used + c,
                     requests_used := q.requests_used + 1 }
  let q3 :=
    if q2.last_collection_date ≠ some now.dateStr then
      { q2 with collections_today := 1, last_collection_date := some now.dateStr }
    else
      { q2 with collections_today := q2.collections_today + 1 }
  some (save_quota now q3)

/-- Result dictionary of get_quota_status (lines 158-168).  percent_used
is a Python float division; it is embedded as the exact rational value. -/
structure QuotaStatus where
  pu_used : Int
  pu_remaining : Int
  pu_limit : Int
  requests_used : Int
  requests_remaining : Int
  percent_used : ℚ
  days_remaining : Int
  safe_daily_pu : Int
  collections_today : Int
deriving DecidableEq, Repr

/-- get_quota_status (lines 139-168), paired with the file contents after
the embedded load. -/
def get_quota_status (now : Clock) (st : Store) : QuotaStatus × Store :=
  let q := (load_quota now st).1
  let st2 := (load_quota now st).2
  let remaining_pu := q.monthly_limit_pu - q.processing_units_used
  let remaining_req := q.monthly_limit_requests - q.requests_used
  let d := days_remaining now.dt
  ({ pu_used := q.processing_units_used
     pu_remaining := remaining_pu
     pu_limit := q.monthly_limit_pu
     requests_used := q.requests_used
     requests_remaining := remaining_req
     percent_used := (q.processing_units_used : ℚ) / (q.monthly_limit_pu : ℚ) * 100
     days_remaining := d
     safe_daily_pu := if 0 < d then Int.fdiv remaining_pu (max d 1) else 0
     collections_today := q.collections_today }, st2)

/-! Concrete fixtures used to instantiate the theorems below. -/

/-- Fixture: a state with zeroed counters for month 2025-03 under the
default 10000/10000 limits. -/
def zeroMarch : QuotaState :=
  { monthly_limit_pu := 10000
    monthly_limit_requests := 10000
    current_month := "2025-03"
    processing_units_used := 0
    requests_used := 0
    last_updated := "2025-03-01T00:00:00"
    daily_budget_pu := 300
    daily_budget_requests := 300
    collections_today := 0
    last_collection_date := none }

/-- Fixture: clock reading for 2025-03-10 noon. -/
def clkMar10 : Clock :=
  { monthStr := "2025-03", dateStr := "2025-03-10"
    isoStr := "2025-03-10T12:00:00", dt := ⟨2025, 3, 10, 43200000000⟩ }

/-- Fixture: clock reading for 2025-03-11 noon, the day after clkMar10. -/
def clkMar11 : Clock :=
  { monthStr := "2025-03", dateStr := "2025-03-11"
    isoStr := "2025-03-11T12:00:00", dt := ⟨2025, 3, 11, 43200000000⟩ }

/-- Fixture: the admission-gate scenario of the spec, monthly_limit_pu = 100
with 80 processing units already used, in month 2025-03. -/
def stGate : QuotaState :=
  { zeroMarch with monthly_limit_pu := 100, processing_units_used := 80 }

/-- Fixture: overage scenario, monthly_limit_pu = 100 with 90 used. -/
def stOver : QuotaState :=
  { zeroMarch with monthly_limit_pu := 100, processing_units_used := 90 }

/-- Fixture: a January 2025 state with 9000 processing units used, as in the
month-rollover scenario of the spec. -/
def stJan9000 : QuotaState :=
  { zeroMarch with current_month := "2025-01", processing_units_used := 9000
                   requests_used := 500, collections_today := 4
                   last_collection_date := some "2025-01-31" }

/-- Fixture: clock reading for 2025-02-05, in the month after stJan9000. -/
def clkFeb : Clock :=
  { monthStr := "2025-02", dateStr := "2025-02-05"
    isoStr := "2025-02-05T08:00:00", dt := ⟨2025, 2, 5, 28800000000⟩ }

/-- Fixture: a February 2025 state whose month matches clkFeb. -/
def stFeb : QuotaState :=
  { zeroMarch with current_month := "2025-02" }

/-- Fixture: a January 2025 state with 7000 of 10000 processing units used,
so that 3000 remain. -/
def stJan7000 : QuotaState :=
  { zeroMarch with current_month := "2025-01", processing_units_used := 7000 }

/-- Fixture: clock reading for 2025-01-22 midnight, ten whole days before
February 1. -/
def clkJan22 : Clock :=
  { monthStr := "2025-01", dateStr := "2025-01-22"
    isoStr := "2025-01-22T00:00:00", dt := ⟨2025, 1, 22, 0⟩ }

/-- Fixture: clock reading just after midnight on 2025-01-31, with zero
whole days left before February 1. -/
def clkJan31 : Clock :=
  { monthStr := "2025-01", dateStr := "2025-01-31"
    isoStr := "2025-01-31T00:00:01", dt := ⟨2025, 1, 31, 1000000⟩ }

/-- Fixture: a date in late December 2025. -/
def decDate : DateTime := ⟨2025, 12, 25, 0⟩

/-! Theorems settling the claims. -/

/-- C1: check_quota returns true exactly when the loaded state has at least
pu_cost processing units remaining and at least one request remaining (the
hard-coded minimum); with monthly_limit_pu = 100 and 80 units used, a cost
of 30 is refused and a cost of 20 admitted. -/
theorem c1_check_admission :
    (∀ (now : Clock) (st : Store) (k : String) (c : Int),
      (check_quota now st k c).1 = true ↔
        (c ≤ (load_quota now st).1.monthly_limit_pu
            - (load_quota now st).1.processing_units_used ∧
         1 ≤ (load_quota now st).1.monthly_limit_requests
            - (load_quota now st).1.requests_used)) ∧
    (check_quota clkMar10 (some stGate) "general" 30).1 = false ∧
    (check_quota clkMar10 (some stGate) "general" 20).1 = true := by
  refine ⟨?_, by decide, by decide⟩
  intro now st k c
  simp only [check_quota]
  split_ifs with h1 h2 <;> simp <;> omega

/-- C9: check_quota never reads the operation_type label, so the admission
result and the resulting store are identical for any two labels with the
same cost and store. -/
theorem c9_check_kind_independent (now : Clock) (st : Store) (k1 k2 : String)
    (c : Int) : check_quota now st k1 c = check_quota now st k2 c := rfl

/-- C2: use_quota with an explicit cost adds exactly that cost to
processing_units_used, increments requests_used by one, sets
collections_today to 1 and last_collection_date to today when the stored
date differs from today and otherwise increments collections_today, and
persists the stamped result; three commits of 30, 30 and 40 from zeroed
counters leave 100 PU and 3 requests, and commits on consecutive days
leave collections_today = 1 with the later date recorded. -/
theorem c2_commit_updates :
    (∀ (now : Clock) (st : Store) (k : String) (c : Int),
      use_quota now st k (some c) =
        some (if (load_quota now st).1.last_collection_date ≠ some now.dateStr then
          { (load_quota now st).1 with
              processing_units_used :=
                (load_quota now st).1.processing_units_used + c
              requests_used := (load_quota now st).1.requests_used + 1
              collections_today := 1
              last_collection_date := some now.dateStr
              last_updated := now.isoStr }
        else
          { (load_quota now st).1 with
              processing_units_used :=
                (load_quota now st).1.processing_units_used + c
              requests_used := (load_quota now st).1.requests_used + 1
              collections_today := (load_quota now st).1.collections_today + 1
              last_updated := now.isoStr })) ∧
    (use_quota clkMar10 (use_quota clkMar10 (use_quota clkMar10 (some zeroMarch)
        "a" (some 30)) "b" (some 30)) "c" (some 40)).map
      QuotaState.processing_units_used = some 100 ∧
    (use_quota clkMar10 (use_quota clkMar10 (use_quota clkMar10 (some zeroMarch)
        "a" (some 30)) "b" (some 30)) "c" (some 40)).map
      QuotaState.requests_used = some 3 ∧
    (use_quota clkMar11 (use_quota clkMar10 (some zeroMarch) "a" (some 30))
        "b" (some 30)).map QuotaState.collections_today = some 1 ∧
    (use_quota clkMar11 (use_quota clkMar10 (some zeroMarch) "a" (some 30))
        "b" (some 30)).map QuotaState.last_collection_date =
      some (some "2025-03-11") := by
  refine ⟨?_, by decide, by decide, by decide, by decide⟩
  intro now st k c
  simp only [use_quota, resolveCost]
  split <;> simp_all [save_quota]

/-- C4: use_quota records the true post-commit counters, neither clamping
them to the monthly limits nor rejecting the write; committing 50 PU onto
a state with 90 of 100 used persists a ledger of 140, strictly above the
limit of 100. -/
theorem c4_commit_overage :
    (∀ (now : Clock) (st : Store) (k : String) (c : Int),
      (use_quota now st k (some c)).map QuotaState.processing_units_used =
        some ((load_quota now st).1.processing_units_used + c) ∧
      (use_quota now st k (some c)).map QuotaState.requests_used =
        some ((load_quota now st).1.requests_used + 1)) ∧
    (use_quota clkMar10 (some stOver) "ndvi" (some 50)).map
      QuotaState.processing_units_used = some 140 ∧
    (use_quota clkMar10 (some stOver) "ndvi" (some 50)).map
      QuotaState.monthly_limit_pu = some 100 ∧
    (100 : Int) < 140 := by
  refine ⟨?_, by decide, by decide, by decide⟩
  intro now st k c
  simp only [use_quota, resolveCost]
  split <;> simp [save_quota]

/-- C10: an operation kind absent from PU_COSTS is charged the default of
30 processing units when use_quota is called without an explicit cost: the
lookup falls back to 30 rather than failing or charging 0, and a default
commit from zeroed counters records 30 units used. -/
theorem c10_default_cost (k : String) (h : PU_COSTS k = none) :
    resolveCost k none = 30 ∧
    (use_quota clkMar10 (some zeroMarch) k none).map
      QuotaState.processing_units_used = some 30 := by
  have hc : resolveCost k none = 30 := by simp [resolveCost, h]
  refine ⟨hc, ?_⟩
  simp only [use_quota, hc]
  split <;> decide

/-- Witness for C10 at the concrete kinds "collection" and "general", both
absent from PU_COSTS. -/
theorem c10_default_cost_witness :
    PU_COSTS "collection" = none ∧ PU_COSTS "general" = none ∧
    (resolveCost "collection" none = 30 ∧
      (use_quota clkMar10 (some zeroMarch) "collection" none).map
        QuotaState.processing_units_used = some 30) :=
  ⟨by decide, by decide, c10_default_cost "collection" (by decide)⟩

/-- C3: loading a state whose stored month differs from the clock's month
zeroes processing_units_used, requests_used and collections_today, stamps
the current month, and persists the reset, so that reloading the persisted
store returns the same zeroed state; a load in the same month returns the
stored state unchanged, and the state returned by any load carries the
clock's calendar month. -/
theorem c3_month_rollover (now : Clock) (q q2 : QuotaState) (st : Store)
    (hstale : q.current_month ≠ now.monthStr)
    (hfresh : q2.current_month = now.monthStr) :
    (load_quota now (some q)).1.processing_units_used = 0 ∧
    (load_quota now (some q)).1.requests_used = 0 ∧
    (load_quota now (some q)).1.collections_today = 0 ∧
    (load_quota now (some q)).1.current_month = now.monthStr ∧
    (load_quota now (some q)).2 = some ((load_quota now (some q)).1) ∧
    load_quota now ((load_quota now (some q)).2) = load_quota now (some q) ∧
    load_quota now (some q2) = (q2, some q2) ∧
    (load_quota now st).1.current_month = now.monthStr := by
  have hq : load_quota now (some q) =
      (save_quota now
        { q with current_month := now.monthStr, processing_units_used := 0,
                 requests_used := 0, collections_today := 0 },
       some (save_quota now
        { q with current_month := now.monthStr, processing_units_used := 0,
                 requests_used := 0, collections_today := 0 })) := by
    simp [load_quota, hstale]
  have hfr : ∀ q3 : QuotaState, q3.current_month = now.monthStr →
      load_quota now (some q3) = (q3, some q3) := by
    intro q3 h3
    simp [load_quota, h3]
  refine ⟨?_, ?_, ?_, ?_, ?_, ?_, hfr q2 hfresh, ?_⟩
  · rw [hq]; rfl
  · rw [hq]; rfl
  · rw [hq]; rfl
  · rw [hq]; rfl
  · rw [hq]
  · rw [hq]
    exact hfr _ rfl
  · match st with
    | none => rfl
    | some q3 =>
      by_cases h3 : q3.current_month = now.monthStr
      · rw [hfr q3 h3]; exact h3
      · simp [load_quota, save_quota, h3]

/-- Witness for C3: a persisted January 2025 state with 9000 PU used,
loaded on 2025-02-05, is reset, persisted, and stable under reload, while
a matching February state loads unchanged. -/
theorem c3_month_rollover_witness :
    stJan9000.current_month ≠ clkFeb.monthStr ∧
    stFeb.current_month = clkFeb.monthStr ∧
    ((load_quota clkFeb (some stJan9000)).1.processing_units_used = 0 ∧
     (load_quota clkFeb (some stJan9000)).1.requests_used = 0 ∧
     (load_quota clkFeb (some stJan9000)).1.collections_today = 0 ∧
     (load_quota clkFeb (some stJan9000)).1.current_month = clkFeb.monthStr ∧
     (load_quota clkFeb (some stJan9000)).2 =
        some ((load_quota clkFeb (some stJan9000)).1) ∧
     load_quota clkFeb ((load_quota clkFeb (some stJan9000)).2) =
        load_quota clkFeb (some stJan9000) ∧
     load_quota clkFeb (some stFeb) = (stFeb, some stFeb) ∧
     (load_quota clkFeb (some stJan9000)).1.current_month = clkFeb.monthStr) :=
  ⟨by decide, by decide,
    c3_month_rollover clkFeb stJan9000 stFeb (some stJan9000)
      (by decide) (by decide)⟩

/-- C5: the recommended safe daily budget of get_quota_status equals the
floor of remaining PU over max(days_remaining, 1) when days_remaining is
positive and 0 otherwise, with no division by zero; 3000 PU remaining over
10 days gives 300, and a day with zero whole days left gives 0. -/
theorem c5_safe_daily_budget :
    (∀ (now : Clock) (st : Store),
      (get_quota_status now st).1.safe_daily_pu =
        if 0 < days_remaining now.dt then
          Int.fdiv ((load_quota now st).1.monthly_limit_pu
              - (load_quota now st).1.processing_units_used)
            (max (days_remaining now.dt) 1)
        else 0) ∧
    days_remaining clkJan22.dt = 10 ∧
    (get_quota_status clkJan22 (some stJan7000)).1.pu_remaining = 3000 ∧
    (get_quota_status clkJan22 (some stJan7000)).1.safe_daily_pu = 300 ∧
    days_remaining clkJan31.dt = 0 ∧
    (get_quota_status clkJan31 (some stJan7000)).1.safe_daily_pu = 0 := by
  refine ⟨?_, by decide, by decide, by decide, by decide, by decide⟩
  intro now st
  rfl

/-- C6: the next-month target used by days_remaining is January 1 of
year + 1 when the month is December and the first of month + 1 of the same
year otherwise; the target is always day 1 of a month in 1..12 (never a
December 32), and days_remaining counts the whole days to that target. -/
theorem c6_december_rollover (dt : DateTime)
    (h1 : 1 ≤ dt.month) (h2 : dt.month ≤ 12) :
    (dt.month = 12 →
      nextMonthStart dt = (dt.year + 1, 1) ∧
      days_remaining dt = wholeDaysUntil dt (dt.year + 1) 1 1) ∧
    (dt.month ≠ 12 →
      nextMonthStart dt = (dt.year, dt.month + 1) ∧
      days_remaining dt = wholeDaysUntil dt dt.year (dt.month + 1) 1) ∧
    1 ≤ (nextMonthStart dt).2 ∧ (nextMonthStart dt).2 ≤ 12 ∧
    1 ≤ daysInMonthTbl (nextMonthStart dt).2 := by
  have tbl : ∀ m, m < 13 → 1 ≤ m → 1 ≤ daysInMonthTbl m := by decide
  by_cases h12 : dt.month = 12
  · refine ⟨fun _ => ⟨by simp [nextMonthStart, h12], ?_⟩, fun hne => absurd h12 hne,
      ?_, ?_, ?_⟩
    · simp [days_remaining, nextMonthStart, h12]
    · simp [nextMonthStart, h12]
    · simp [nextMonthStart, h12]
    · have hn : (nextMonthStart dt).2 = 1 := by simp [nextMonthStart, h12]
      rw [hn]; decide
  · have hne : dt.month ≠ 12 := h12
    have hm : (dt.month == 12) = false := by
      simp [hne]
    refine ⟨fun h => absurd h hne, fun _ => ⟨by simp [nextMonthStart, hm], ?_⟩,
      ?_, ?_, ?_⟩
    · simp [days_remaining, nextMonthStart, hm]
    · simp [nextMonthStart, hm]
    · simp [nextMonthStart, hm]; omega
    · simp only [nextMonthStart, hm, Bool.false_eq_true, if_false]
      exact tbl (dt.month + 1) (by omega) (by omega)

/-- Witness for C6 at 2025-12-25 midnight: seven whole days remain before
January 1 of 2026. -/
theorem c6_december_rollover_witness :
    1 ≤ decDate.month ∧ decDate.month ≤ 12 ∧
    ((decDate.month = 12 →
        nextMonthStart decDate = (decDate.year + 1, 1) ∧
        days_remaining decDate = wholeDaysUntil decDate (decDate.year + 1) 1 1) ∧
      (decDate.month ≠ 12 →
        nextMonthStart decDate = (decDate.year, decDate.month + 1) ∧
        days_remaining decDate = wholeDaysUntil decDate decDate.year
          (decDate.month + 1) 1) ∧
      1 ≤ (nextMonthStart decDate).2 ∧ (nextMonthStart decDate).2 ≤ 12 ∧
      1 ≤ daysInMonthTbl (nextMonthStart decDate).2) ∧
    nextMonthStart decDate = (2026, 1) ∧
    days_remaining decDate = 7 :=
  ⟨by decide, by decide,
    c6_december_rollover decDate (by decide) (by decide),
    by decide, by decide⟩

/-- C7 counterexample: the claim that check never changes the persisted
state fails on a store holding a stale month — check_quota on a January
state in February persists the rollover reset, so the stored state after
the call differs from the one before. -/
theorem c7_check_mutates_counterexample :
    (check_quota clkFeb (some stJan9000) "general" 50).2 ≠ some stJan9000 ∧
    (check_quota clkFeb none "general" 50).2 ≠ (none : Store) := by
  refine ⟨by decide, by decide⟩

/-- C7 amended: when a stored state exists and its month matches the
clock's, check_quota and get_quota_status leave the persisted state
unchanged; mutation happens only through load's rollover of a stale month
or its initialization of a missing file. -/
theorem c7_check_status_nonmutating (now : Clock) (q : QuotaState)
    (k : String) (c : Int) (h : q.current_month = now.monthStr) :
    (check_quota now (some q) k c).2 = some q ∧
    (get_quota_status now (some q)).2 = some q := by
  have hl : load_quota now (some q) = (q, some q) := by
    simp [load_quota, h]
  constructor
  · simp only [check_quota, hl]
    split_ifs <;> rfl
  · simp only [get_quota_status, hl]

/-- Witness for C7 amended: a check of cost 50 and a status read over the
matching March state leave the store exactly as it was. -/
theorem c7_check_status_nonmutating_witness :
    zeroMarch.current_month = clkMar10.monthStr ∧
    ((check_quota clkMar10 (some zeroMarch) "general" 50).2 = some zeroMarch ∧
     (get_quota_status clkMar10 (some zeroMarch)).2 = some zeroMarch) :=
  ⟨by decide,
    c7_check_status_nonmutating clkMar10 zeroMarch "general" 50 (by decide)⟩

end Copernicus
